import Mathlib

/-!
Verification of the Drupal Blazy lazy-loading pipeline
(`dBlazy` utilities, `Bio` observer engine, `BioMedia` media loader)
against its natural-language specification.

The JavaScript source is shallowly embedded: a breakpoint dataset is a
list of key/value pairs in the order `Object.keys` enumerates them
(ascending for the integer-like keys used here); DOM elements are records
of the attributes and classes the pipeline reads and writes; the observer
engine's per-instance and module-level mutable variables become explicit
state records; the asynchronous preload promise becomes an explicit
resolution step parameterised by its outcome.
-/

namespace Blazy

/-! ## dBlazy utility layer: `activeWidth` (source lines 105-122)

`dBlazy.activeWidth(dataset, mobileFirst)` computes
`ww = windowWidth() * pixelRatio()` in desktop-first mode (or
`windowWidth()` alone in mobile-first mode), filters the dataset keys by
`parseInt(w) <= ww` (mobile-first) or `parseInt(w) >= ww` (desktop-first),
maps them through `dataset[v]`, takes `pop()` (mobile-first) or `shift()`
(desktop-first), and falls back to `dataset[ww >= xl ? xl : xs]` where
`xs`/`xl` are the first/last keys. -/

/-- Direct embedding of `dBlazy.activeWidth`. The dataset is the list of
`(key, value)` pairs in `Object.keys` enumeration order; `winW` is
`dBlazy.windowWidth()` and `pixelRatio` is `dBlazy.pixelRatio()`. -/
def activeWidth {α : Type} (dataset : List (Nat × α)) (winW pixelRatio : Nat)
    (mobileFirst : Bool) : Option α :=
  let keys := dataset.map Prod.fst
  let pr := winW * pixelRatio
  let ww := if mobileFirst then winW else pr
  let mw : Nat → Bool := fun w => if mobileFirst then decide (w ≤ ww) else decide (ww ≤ w)
  let picked := (keys.filter mw).map fun v => List.lookup v dataset
  let data : Option α := (if mobileFirst then picked.getLast? else picked.head?).join
  match data with
  | some d => some d
  | none =>
    match keys.head?, keys.getLast? with
    | some xs, some xl => List.lookup (if xl ≤ ww then xl else xs) dataset
    | _, _ => none

/-- Keys of a dataset, as the source's `Object.keys(dataset)`. -/
def datasetKeys {α : Type} (dataset : List (Nat × α)) : List Nat :=
  dataset.map Prod.fst

/-- A dataset is well-formed when its keys are strictly ascending, which is
how `Object.keys` enumerates integer-like JavaScript object keys. -/
abbrev KeysAscending {α : Type} (dataset : List (Nat × α)) : Prop :=
  dataset.Pairwise fun p q => p.1 < q.1

lemma head_filter_eq_find {α : Type} (p : α → Bool) (l : List α) :
    (l.filter p).head? = l.find? p := by
  induction l with
  | nil => rfl
  | cons a t ih =>
    by_cases h : p a
    · simp [List.filter_cons, List.find?_cons, h]
    · simp only [Bool.not_eq_true] at h
      simp [List.filter_cons, List.find?_cons, h, ih]

lemma lookup_of_ascending {α : Type} {dataset : List (Nat × α)}
    (hs : KeysAscending dataset) {p : Nat × α} (hp : p ∈ dataset) :
    List.lookup p.1 dataset = some p.2 := by
  induction dataset with
  | nil => cases hp
  | cons a t ih =>
    rcases List.mem_cons.1 hp with rfl | hp
    · simp [List.lookup]
    · have ha : a.1 < p.1 := (List.pairwise_cons.1 hs).1 p hp
      have hne : (p.1 == a.1) = false := by
        simp [Nat.ne_of_gt ha]
      simp only [List.lookup, hne]
      exact ih (List.pairwise_cons.1 hs).2 hp

lemma find_key_of_min {α : Type} {dataset : List (Nat × α)} {ww : Nat}
    (hs : KeysAscending dataset) {p : Nat × α} (hp : p ∈ dataset)
    (hle : ww ≤ p.1) (hmin : ∀ q ∈ dataset, ww ≤ q.1 → p.1 ≤ q.1) :
    (datasetKeys dataset).find? (fun w => decide (ww ≤ w)) = some p.1 := by
  induction dataset with
  | nil => cases hp
  | cons a t ih =>
    rcases List.mem_cons.1 hp with rfl | hp
    · simp [datasetKeys, List.find?_cons, hle]
    · have ha : a.1 < p.1 := (List.pairwise_cons.1 hs).1 p hp
      have hna : ¬ ww ≤ a.1 := by
        intro hwa
        exact absurd (hmin a (List.mem_cons_self a t) hwa) (Nat.not_le_of_lt ha)
      have hd : (decide (ww ≤ a.1)) = false := by simp [hna]
      simp only [datasetKeys, List.map_cons, List.find?_cons, hd]
      exact ih (List.pairwise_cons.1 hs).2 hp
        (fun q hq hwq => hmin q (List.mem_cons_of_mem a hq) hwq)

lemma find_key_none {α : Type} {dataset : List (Nat × α)} {ww : Nat}
    (hall : ∀ p ∈ dataset, p.1 < ww) :
    (datasetKeys dataset).find? (fun w => decide (ww ≤ w)) = none := by
  apply List.find?_eq_none.2
  intro k hk
  rcases List.mem_map.1 hk with ⟨p, hp, rfl⟩
  simp [Nat.not_le_of_lt (hall p hp)]

lemma activeWidth_desktop_eq {α : Type} (dataset : List (Nat × α))
    (winW pixelRatio : Nat) :
    activeWidth dataset winW pixelRatio false =
      (match (((datasetKeys dataset).find? fun w =>
          decide (winW * pixelRatio ≤ w)).map fun v => List.lookup v dataset).join with
      | some d => some d
      | none =>
        match (datasetKeys dataset).head?, (datasetKeys dataset).getLast? with
        | some xs, some xl =>
          List.lookup (if xl ≤ winW * pixelRatio then xl else xs) dataset
        | _, _ => none) := by
  simp only [activeWidth, datasetKeys, Bool.false_eq_true, if_false,
    ← head_filter_eq_find, List.head?_map]

/-- Claim C1: in desktop-first mode (`mobileFirst = false`), for a
well-formed breakpoint dataset, `activeWidth` returns the value of the
smallest key that is at least the effective width
`windowWidth * pixelRatio`; when no key qualifies it returns the last
(largest) key's value if the effective width is at least the largest key,
and otherwise the first (smallest) key's value. -/
theorem activeWidth_desktop_first_spec {α : Type} (dataset : List (Nat × α))
    (winW pixelRatio : Nat) (hs : KeysAscending dataset) :
    (∀ p ∈ dataset, winW * pixelRatio ≤ p.1 →
      (∀ q ∈ dataset, winW * pixelRatio ≤ q.1 → p.1 ≤ q.1) →
      activeWidth dataset winW pixelRatio false = some p.2) ∧
    ((∀ p ∈ dataset, p.1 < winW * pixelRatio) → dataset ≠ [] →
      ∃ pl ph, dataset.getLast? = some pl ∧ dataset.head? = some ph ∧
        activeWidth dataset winW pixelRatio false =
          some (if pl.1 ≤ winW * pixelRatio then pl.2 else ph.2)) := by
  constructor
  · intro p hp hle hmin
    rw [activeWidth_desktop_eq, find_key_of_min hs hp hle hmin]
    simp [lookup_of_ascending hs hp]
  · intro hall hne
    refine ⟨dataset.getLast hne, dataset.head hne,
      List.getLast?_eq_getLast_of_ne_nil hne, List.head?_eq_head hne, ?_⟩
    rw [activeWidth_desktop_eq, find_key_none hall]
    have hkh : (datasetKeys dataset).head? = some (dataset.head hne).1 := by
      simp [datasetKeys, List.head?_map, List.head?_eq_head hne]
    have hkl : (datasetKeys dataset).getLast? = some (dataset.getLast hne).1 := by
      simp [datasetKeys, List.getLast?_map, List.getLast?_eq_getLast_of_ne_nil hne]
    rw [hkh, hkl]
    have hlt : (dataset.getLast hne).1 < winW * pixelRatio :=
      hall _ (List.getLast_mem hne)
    simp only [Option.map_none', Option.join, if_pos (Nat.le_of_lt hlt)]
    exact lookup_of_ascending hs (List.getLast_mem hne)

/-- Witness for C1: on the dataset `{0: "a.jpg", 768: "b.jpg", 1200: "c.jpg"}`
with window width 700 and pixel ratio 1, the smallest qualifying key is 768,
and `activeWidth` indeed returns its value. -/
theorem activeWidth_desktop_first_spec_witness :
    activeWidth [(0, "a.jpg"), (768, "b.jpg"), (1200, "c.jpg")] 700 1 false =
      some "b.jpg" :=
  (activeWidth_desktop_first_spec [(0, "a.jpg"), (768, "b.jpg"), (1200, "c.jpg")]
      700 1 (by decide)).1 (768, "b.jpg") (by decide) (by decide)
    (by decide)

/-- Counterexample for C2 as stated: on the dataset
`{0: "a.jpg", 768: "b.jpg", 1200: "c.jpg"}` in desktop-first mode at window
width 900 with pixel ratio 1, `activeWidth` does not return `"b.jpg"`:
the keys filtered by `>= 900` are `[1200]`, and `shift()` picks 1200. -/
theorem activeWidth_900_not_b :
    activeWidth [(0, "a.jpg"), (768, "b.jpg"), (1200, "c.jpg")] 900 1 false ≠
      some "b.jpg" := by
  decide

/-- Claim C2 (amended): on the dataset `{0: "a.jpg", 768: "b.jpg",
1200: "c.jpg"}` in desktop-first mode at window width 900 with pixel ratio 1,
`activeWidth` returns `"c.jpg"`, the value of the smallest key at least the
effective width 900. -/
theorem activeWidth_900_eq_c :
    activeWidth [(0, "a.jpg"), (768, "b.jpg"), (1200, "c.jpg")] 900 1 false =
      some "c.jpg" := by
  decide

/-! ## DOM element model

An element records exactly the attributes, properties and classes the
lazy-loading pipeline reads and writes: `data-src`, `data-srcset`, `src`,
`srcset`, the class list, the `data-bio-hit` marker, the inline
`background-image` style, and (for `<picture>`/`<video>`) the child
`<source>` elements. -/

/-- Element tags distinguished by the loader's branches. `other` stands for
any tag without a `src` IDL property (e.g. `div`, `span`). -/
inductive Tag
  | img
  | video
  | iframe
  | other
deriving DecidableEq, Repr

/-- Whether `typeof el.src` is not `'undefined'`: true exactly for element
interfaces carrying a `src` IDL property. -/
def tagHasSrcProp : Tag → Bool
  | Tag.img => true
  | Tag.video => true
  | Tag.iframe => true
  | Tag.other => false

/-- A `<source>` child of a `<picture>` or `<video>` element. -/
structure SourceEl where
  dataSrc : Option String := none
  dataSrcset : Option String := none
  src : Option String := none
  srcset : Option String := none
deriving DecidableEq, Repr

/-- A DOM element as seen by the pipeline. -/
structure Elem where
  tag : Tag
  parentIsPicture : Bool := false
  dataSrc : Option String := none
  dataSrcset : Option String := none
  src : Option String := none
  srcset : Option String := none
  classes : List String := []
  hit : Bool := false
  bgImage : Option String := none
  sources : List SourceEl := []
deriving DecidableEq, Repr

/-- JavaScript truthiness of a `getAttribute` result: `null` and the empty
string are falsy. -/
def jsTruthy : Option String → Bool
  | none => false
  | some s => !s.isEmpty

/-- `el.classList.contains(c)`. -/
def hasClass (el : Elem) (c : String) : Bool :=
  el.classes.contains c

/-- `el.classList.add(c)`: no duplicate entries. -/
def addClass (el : Elem) (c : String) : Elem :=
  if el.classes.contains c then el else { el with classes := el.classes ++ [c] }

/-- The two attribute names the media loader promotes (`_src`, `_srcSet`). -/
inductive MAttr
  | src
  | srcset
deriving DecidableEq, Repr

def getDataAttr (el : Elem) : MAttr → Option String
  | MAttr.src => el.dataSrc
  | MAttr.srcset => el.dataSrcset

def putRealAttr (el : Elem) (a : MAttr) (v : String) : Elem :=
  match a with
  | MAttr.src => { el with src := some v }
  | MAttr.srcset => { el with srcset := some v }

def clearDataAttr (el : Elem) : MAttr → Elem
  | MAttr.src => { el with dataSrc := none }
  | MAttr.srcset => { el with dataSrcset := none }

/-- Embedding of `dBlazy.setAttr(el, attr, remove)` (source lines 269-284):
if `el` has `data-<attr>`, promote it to the real attribute (assigning the
`src` property for `src`), and remove the data attribute when `remove`. -/
def setAttr (el : Elem) (a : MAttr) (remove : Bool) : Elem :=
  match getDataAttr el a with
  | none => el
  | some v =>
    let el := putRealAttr el a v
    if remove then clearDataAttr el a else el

/-- Embedding of `dBlazy.setAttrs(el, attrs, remove)`. -/
def setAttrs (el : Elem) (attrs : List MAttr) (remove : Bool) : Elem :=
  attrs.foldl (fun e a => setAttr e a remove) el

/-- Embedding of `dBlazy.removeAttrs(el, attrs)`: removes each
`data-<attr>`. -/
def removeAttrs (el : Elem) (attrs : List MAttr) : Elem :=
  attrs.foldl (fun e a => clearDataAttr e a) el

def getSourceData (s : SourceEl) : MAttr → Option String
  | MAttr.src => s.dataSrc
  | MAttr.srcset => s.dataSrcset

def setSourceAttr (s : SourceEl) (a : MAttr) (remove : Bool) : SourceEl :=
  match getSourceData s a with
  | none => s
  | some v =>
    let s := match a with
      | MAttr.src => { s with src := some v }
      | MAttr.srcset => { s with srcset := some v }
    if remove then
      match a with
      | MAttr.src => { s with dataSrc := none }
      | MAttr.srcset => { s with dataSrcset := none }
    else s

/-- Embedding of `dBlazy.setAttrsWithSources(el, attr, remove)`: promotes
the attribute on every relevant `<source>` child. -/
def setAttrsWithSources (el : Elem) (a : MAttr) (remove : Bool) : Elem :=
  { el with sources := el.sources.map fun s => setSourceAttr s a remove }

/-- The CSS text `url("<s>")` assigned to `style.backgroundImage`. -/
def cssUrl (s : String) : String :=
  "url(\"" ++ s ++ "\")"

/-- Embedding of `BioMedia.prototype.setBg` (source lines 1118-1123): if
`data-src` is present, set the background image from it and remove the
`src` attribute. -/
def setBg (el : Elem) : Elem :=
  match el.dataSrc with
  | some v => { el with bgImage := some (cssUrl v), src := none }
  | none => el

/-! ## Bio observer engine state (source lines 694-940)

Per-instance fields (`count`, `counted`, `erCounted`, `elms`, the
underlying `IntersectionObserver`) become a record; the module-level
closure variables `_bioTick`, `_disconnected`, `_observed` become a shared
record, since they are one per script, not one per instance. -/

/-- The option keys relevant to the claims, with the source's defaults. -/
structure Opts where
  disconnect : Bool := false
  successClass : String := "b-loaded"
  errorClass : String := "b-error"
  bgClass : String := "b-bg"
deriving DecidableEq, Repr

/-- Per-instance state of a `Bio`/`BioMedia` instance. `observerAlive`
models whether the underlying `IntersectionObserver` is still connected. -/
structure BioInst where
  count : Nat := 0
  counted : Int := -1
  erCounted : Int := 0
  elms : Option (List Elem) := none
  observerAlive : Bool := true
deriving DecidableEq, Repr

/-- Module-level mutable variables of the `Bio` factory closure. -/
structure Shared where
  bioTick : Int := 0
  disconnected : Bool := false
  observed : Bool := false
deriving DecidableEq, Repr

/-- Embedding of `Bio.prototype.success` (lines 815-825): runs the success
callback, then decrements `erCounted` only when it is positive. -/
def successStep (me : BioInst) : BioInst :=
  if 0 < me.erCounted then { me with erCounted := me.erCounted - 1 } else me

/-- Embedding of `Bio.prototype.error` (lines 827-835): runs the error
callback, then increments `erCounted`. -/
def errorStep (me : BioInst) : BioInst :=
  { me with erCounted := me.erCounted + 1 }

/-- Embedding of `Bio.prototype.loaded` (lines 837-842): adds the success
or error class and delegates to `success` or `error`; `ok = true` models
`status === me._ok`. -/
def loadedStep (opts : Opts) (el : Elem) (ok : Bool) (me : BioInst) :
    Elem × BioInst :=
  let el := addClass el (if ok then opts.successClass else opts.errorClass)
  (el, if ok then successStep me else errorStep me)

/-- Embedding of `Bio.prototype.disconnect(force)` (lines 886-901). -/
def disconnect (opts : Opts) (force : Bool) (me : BioInst) (sh : Shared) :
    BioInst × Shared :=
  if 0 < me.erCounted ∧ force = false then (me, sh)
  else if ((sh.bioTick = 0 ∨ (me.count : Int) = me.counted) ∧
      opts.disconnect = true) ∨ force = true then
    ({ me with count := 0, elms := none, observerAlive := false },
      { sh with disconnected := true })
  else (me, sh)

/-! ## BioMedia media loader (source lines 1011-1123)

`lazyLoad` runs synchronously when an element is intersected; the image
preload promise created by `setImage`/`promise` resolves later.
Observable effects are recorded as a trace of actions. -/

/-- Observable actions of a `lazyLoad` invocation and of the preload
resolution, in program order. -/
inductive Action
  | probe (src : Option String) (srcset : Option String)
  | promoteSources (a : MAttr)
  | promote (a : MAttr)
  | videoLoad
  | loadedEv (ok : Bool)
  | setHit
  | finallyEv
deriving DecidableEq, Repr

def isProbe : Action → Bool
  | Action.probe _ _ => true
  | _ => false

/-- Number of detached image-preload probes created in a trace. -/
def countProbes (t : List Action) : Nat :=
  t.countP isProbe

/-- `isBg` test of `BioMedia.prototype.lazyLoad`:
`typeof el.src === 'undefined' && el.classList.contains(me.options.bgClass)`. -/
def elemIsBg (opts : Opts) (el : Elem) : Bool :=
  !tagHasSrcProp el.tag && hasClass el opts.bgClass

/-- The branch dispatch of `BioMedia.prototype.lazyLoad` (lines 1028-1054),
before the hit marker is written: `<picture>` children, `<video>`,
image/background preload, and the iframe-like fallback. -/
def lazyBranch (opts : Opts) (el : Elem) (me : BioInst) :
    Elem × BioInst × List Action :=
  if el.parentIsPicture then
    let el := setAttrsWithSources el MAttr.srcset true
    let el := setAttr el MAttr.src true
    let r := loadedStep opts el true me
    (r.1, r.2, [Action.promoteSources MAttr.srcset, Action.promote MAttr.src,
      Action.loadedEv true])
  else if el.tag = Tag.video then
    let el := setAttrsWithSources el MAttr.src true
    let r := loadedStep opts el true me
    (r.1, r.2, [Action.promoteSources MAttr.src, Action.videoLoad,
      Action.loadedEv true])
  else if el.tag = Tag.img ∨ elemIsBg opts el = true then
    (el, me, [Action.probe el.dataSrc el.dataSrcset])
  else if jsTruthy el.dataSrc = true ∧ el.src.isSome = true then
    let el := setAttr el MAttr.src true
    let r := loadedStep opts el true me
    (r.1, r.2, [Action.promote MAttr.src, Action.loadedEv true])
  else (el, me, [])

/-- Embedding of `BioMedia.prototype.lazyLoad` (lines 1011-1061): a no-op
when `data-bio-hit` is present; otherwise runs the type-specific branch and
then marks the element hit. Only the synchronous part of the call is
modelled — for images and backgrounds the promise outcome is applied later
by `setImageResolve`. -/
def mediaLazyLoad (opts : Opts) (el : Elem) (me : BioInst) :
    Elem × BioInst × List Action :=
  if el.hit then (el, me, [])
  else
    let r := lazyBranch opts el me
    ({ r.1 with hit := true }, r.2.1, r.2.2 ++ [Action.setHit])

/-- `applyAttrs` closure inside `BioMedia.prototype.promise`
(lines 1075-1082): promotes the real attributes regardless of outcome. -/
def applyAttrs (el : Elem) (isBg : Bool) : Elem :=
  if isBg then setBg el else setAttrs el [MAttr.srcset, MAttr.src] false

/-- Embedding of the promise resolution of `BioMedia.prototype.setImage`
(lines 1063-1116): the probe's `onload`/`onerror` handler applies the
attributes, then the `.then` branch marks loaded and strips the data
attributes, or the `.catch` branch marks errored and clears the hit
marker; `.finally` fires `bio.finally` on both paths. `ok` is the probe
outcome. -/
def setImageResolve (opts : Opts) (el : Elem) (isBg : Bool) (ok : Bool)
    (me : BioInst) : Elem × BioInst × List Action :=
  let el := applyAttrs el isBg
  if ok then
    let r := loadedStep opts el true me
    let el := removeAttrs r.1 (if isBg then [MAttr.src] else [MAttr.srcset, MAttr.src])
    (el, r.2, [Action.loadedEv true, Action.finallyEv])
  else
    let r := loadedStep opts el false me
    let el := { r.1 with hit := false }
    (el, r.2, [Action.loadedEv false, Action.finallyEv])

/-- `Bio.prototype.disconnected` (lines 908-910): reads only the
module-level `_disconnected` flag, never the instance. -/
def disconnectedQ (_me : BioInst) (sh : Shared) : Bool :=
  sh.disconnected

/-- The `init(me)` helper of the `Bio` factory (lines 917-938): queries the
not-yet-loaded elements, records the count, creates the observer, and — only
when the module-level `_observed` flag is still false — observes them
(setting `_bioTick` in `observe`) and flips `_observed`. `dom` stands for
the `querySelectorAll` result before the `:not(.successClass)` filter. -/
def bioInit (opts : Opts) (dom : List Elem) (sh : Shared) :
    BioInst × Shared :=
  let elms := dom.filter fun e => !hasClass e opts.successClass
  let me : BioInst :=
    { count := elms.length, counted := -1, erCounted := 0,
      elms := some elms, observerAlive := true }
  let sh := if sh.observed then sh
    else { sh with bioTick := (elms.length : Int), observed := true }
  (me, sh)

/-- The module-level closure of the `Bio` factory together with every
instance constructed from it. -/
structure World where
  shared : Shared
  insts : List BioInst
deriving DecidableEq, Repr

/-- The `Bio` constructor (lines 694-718): merges options, resets the
module-level `_disconnected` and `_observed` flags, and runs `init`. -/
def newBio (opts : Opts) (dom : List Elem) (w : World) : World :=
  let sh := { w.shared with disconnected := false, observed := false }
  let r := bioInit opts dom sh
  { shared := r.2, insts := w.insts ++ [r.1] }

/-- Calling `disconnect(force)` on the `i`-th instance of the world. -/
def disconnectAt (opts : Opts) (force : Bool) (i : Nat) (w : World) : World :=
  match w.insts[i]? with
  | none => w
  | some me =>
    let r := disconnect opts force me w.shared
    { shared := r.2, insts := w.insts.set i r.1 }

/-- The `success`/`error` bookkeeping operations on a loader instance, as
they run on each preload outcome. -/
inductive ErOp
  | success
  | error
deriving DecidableEq, Repr

/-- A sequence of preload outcomes applied to an instance. -/
def runErOps (me : BioInst) : List ErOp → BioInst
  | [] => me
  | ErOp.success :: t => runErOps (successStep me) t
  | ErOp.error :: t => runErOps (errorStep me) t

/-- A plain lazy image element: an `<img data-src="x.jpg">` not yet hit. -/
def imgElem : Elem :=
  { tag := Tag.img, dataSrc := some "x.jpg" }

lemma mediaLazyLoad_of_hit (opts : Opts) (el : Elem) (me : BioInst)
    (h : el.hit = true) : mediaLazyLoad opts el me = (el, me, []) := by
  simp [mediaLazyLoad, h]

lemma hit_after_mediaLazyLoad (opts : Opts) (el : Elem) (me : BioInst) :
    (mediaLazyLoad opts el me).1.hit = true := by
  by_cases h : el.hit = true
  · simp [mediaLazyLoad, h]
  · simp only [Bool.not_eq_true] at h
    simp [mediaLazyLoad, h]

lemma countProbes_lazyBranch (opts : Opts) (el : Elem) (me : BioInst) :
    countProbes (lazyBranch opts el me).2.2 ≤ 1 := by
  unfold lazyBranch
  split
  · simp [countProbes, isProbe]
  · split
    · simp [countProbes, isProbe]
    · split
      · simp [countProbes, isProbe]
      · split
        · simp [countProbes, isProbe]
        · simp [countProbes]

/-- Claim C3: invoking `BioMedia.prototype.lazyLoad` twice in immediate
succession — before the first call's preload promise resolves — creates at
most one image-preload probe in total: the first call marks the element
with `data-bio-hit`, so the second call returns immediately. -/
theorem lazyLoad_twice_at_most_one_probe (opts : Opts) (el : Elem)
    (me : BioInst) :
    countProbes (mediaLazyLoad opts el me).2.2 +
      countProbes (mediaLazyLoad opts (mediaLazyLoad opts el me).1
        (mediaLazyLoad opts el me).2.1).2.2 ≤ 1 := by
  rw [mediaLazyLoad_of_hit opts _ _ (hit_after_mediaLazyLoad opts el me)]
  by_cases h : el.hit = true
  · rw [mediaLazyLoad_of_hit opts _ _ h]
    simp [countProbes]
  · simp only [Bool.not_eq_true] at h
    simp only [mediaLazyLoad, h, Bool.false_eq_true, if_false]
    have hb := countProbes_lazyBranch opts el me
    simp only [countProbes, List.countP_append] at *
    simp [isProbe]
    omega

lemma contains_addClass (el : Elem) (c : String) :
    (addClass el c).classes.contains c = true := by
  unfold addClass
  by_cases h : el.classes.contains c
  · rw [if_pos h]
    exact h
  · rw [if_neg h]
    simp

lemma addClass_src (el : Elem) (c : String) : (addClass el c).src = el.src := by
  unfold addClass
  split <;> rfl

lemma addClass_dataSrc (el : Elem) (c : String) :
    (addClass el c).dataSrc = el.dataSrc := by
  unfold addClass
  split <;> rfl

lemma addClass_dataSrcset (el : Elem) (c : String) :
    (addClass el c).dataSrcset = el.dataSrcset := by
  unfold addClass
  split <;> rfl

lemma addClass_hit (el : Elem) (c : String) : (addClass el c).hit = el.hit := by
  unfold addClass
  split <;> rfl

lemma addClass_bgImage (el : Elem) (c : String) :
    (addClass el c).bgImage = el.bgImage := by
  unfold addClass
  split <;> rfl

lemma mem_addClass (el : Elem) (c : String) : c ∈ (addClass el c).classes := by
  unfold addClass
  by_cases h : el.classes.contains c
  · rw [if_pos h]
    exact List.mem_of_elem_eq_true h
  · rw [if_neg h]
    simp

lemma hasClass_addClass (el : Elem) (c : String) :
    hasClass (addClass el c) c = true := by
  unfold hasClass
  exact contains_addClass el c

/-- Claim C5: round-trip on success. An `<img>` element (not inside a
`<picture>`, not yet hit) with `data-src = X` whose preload probe succeeds
ends, after `lazyLoad` and the resolved `setImage` protocol, with
`src = X`, the success class, and no `data-src` attribute. -/
theorem roundtrip_success (opts : Opts) (el : Elem) (me : BioInst)
    (X : String) (htag : el.tag = Tag.img) (hpic : el.parentIsPicture = false)
    (hhit : el.hit = false) (hdata : el.dataSrc = some X) :
    (setImageResolve opts (mediaLazyLoad opts el me).1 false true
        (mediaLazyLoad opts el me).2.1).1.src = some X ∧
    hasClass (setImageResolve opts (mediaLazyLoad opts el me).1 false true
        (mediaLazyLoad opts el me).2.1).1 opts.successClass = true ∧
    (setImageResolve opts (mediaLazyLoad opts el me).1 false true
        (mediaLazyLoad opts el me).2.1).1.dataSrc = none := by
  have hload : mediaLazyLoad opts el me =
      ({ el with hit := true }, me, [Action.probe el.dataSrc el.dataSrcset,
        Action.setHit]) := by
    simp [mediaLazyLoad, lazyBranch, hhit, hpic, htag]
  rw [hload]
  cases hss : el.dataSrcset with
  | none =>
    simp [setImageResolve, applyAttrs, setAttrs, setAttr, getDataAttr, hss,
      hdata, putRealAttr, loadedStep, removeAttrs, clearDataAttr, hasClass,
      contains_addClass, mem_addClass, addClass_src]
  | some v =>
    simp [setImageResolve, applyAttrs, setAttrs, setAttr, getDataAttr, hss,
      hdata, putRealAttr, loadedStep, removeAttrs, clearDataAttr, hasClass,
      contains_addClass, mem_addClass, addClass_src]

/-- Witness for C5 at the concrete element `imgElem`. -/
theorem roundtrip_success_witness :
    (setImageResolve {} (mediaLazyLoad {} imgElem {}).1 false true
        (mediaLazyLoad {} imgElem {}).2.1).1.src = some "x.jpg" ∧
    hasClass (setImageResolve {} (mediaLazyLoad {} imgElem {}).1 false true
        (mediaLazyLoad {} imgElem {}).2.1).1 (Opts.successClass {}) = true ∧
    (setImageResolve {} (mediaLazyLoad {} imgElem {}).1 false true
        (mediaLazyLoad {} imgElem {}).2.1).1.dataSrc = none :=
  roundtrip_success {} imgElem {} "x.jpg" rfl rfl rfl rfl

/-- Claim C6: failure path. For an element taking the asynchronous preload
branch (an `<img>`, or a background element, outside `<picture>`, not yet
hit) with `data-src = X` whose probe fails, the protocol ends with the
error class applied, the real attribute still promoted best-effort
(`src` for images, the CSS background for background elements), and the
`data-bio-hit` marker removed so the element is eligible for retry. -/
theorem failure_path (opts : Opts) (el : Elem) (me : BioInst) (X : String)
    (hpic : el.parentIsPicture = false) (hhit : el.hit = false)
    (hdata : el.dataSrc = some X)
    (hbr : el.tag = Tag.img ∨ elemIsBg opts el = true) :
    hasClass (setImageResolve opts (mediaLazyLoad opts el me).1
        (elemIsBg opts el) false (mediaLazyLoad opts el me).2.1).1
      opts.errorClass = true ∧
    (setImageResolve opts (mediaLazyLoad opts el me).1 (elemIsBg opts el)
        false (mediaLazyLoad opts el me).2.1).1.hit = false ∧
    (if elemIsBg opts el then
        (setImageResolve opts (mediaLazyLoad opts el me).1 (elemIsBg opts el)
            false (mediaLazyLoad opts el me).2.1).1.bgImage = some (cssUrl X)
      else
        (setImageResolve opts (mediaLazyLoad opts el me).1 (elemIsBg opts el)
            false (mediaLazyLoad opts el me).2.1).1.src = some X) := by
  have hnv : ¬ el.tag = Tag.video := by
    rcases hbr with htag | hbg
    · rw [htag]; intro h; cases h
    · intro h
      rw [elemIsBg, h] at hbg
      simp [tagHasSrcProp] at hbg
  have hload : mediaLazyLoad opts el me =
      ({ el with hit := true }, me, [Action.probe el.dataSrc el.dataSrcset,
        Action.setHit]) := by
    rcases hbr with htag | hbg
    · simp [mediaLazyLoad, lazyBranch, hhit, hpic, htag]
    · simp [mediaLazyLoad, lazyBranch, hhit, hpic, hnv, hbg]
  rw [hload]
  by_cases hbg : elemIsBg opts el = true
  · simp only [hbg, if_pos rfl]
    simp [setImageResolve, applyAttrs, setBg, hdata, loadedStep, hasClass,
      contains_addClass, mem_addClass, addClass_bgImage]
  · have hbg' : elemIsBg opts el = false := by
      simp only [Bool.not_eq_true] at hbg
      exact hbg
    rw [hbg']
    cases hss : el.dataSrcset with
    | none =>
      simp [setImageResolve, applyAttrs, setAttrs, setAttr, getDataAttr, hss,
        hdata, putRealAttr, loadedStep, hasClass, contains_addClass, mem_addClass,
        addClass_src]
    | some v =>
      simp [setImageResolve, applyAttrs, setAttrs, setAttr, getDataAttr, hss,
        hdata, putRealAttr, loadedStep, hasClass, contains_addClass, mem_addClass,
        addClass_src]

/-- Witness for C6 at the concrete element `imgElem`. -/
theorem failure_path_witness :
    hasClass (setImageResolve {} (mediaLazyLoad {} imgElem {}).1
        (elemIsBg {} imgElem) false (mediaLazyLoad {} imgElem {}).2.1).1
      (Opts.errorClass {}) = true ∧
    (setImageResolve {} (mediaLazyLoad {} imgElem {}).1 (elemIsBg {} imgElem)
        false (mediaLazyLoad {} imgElem {}).2.1).1.hit = false ∧
    (if elemIsBg {} imgElem then
        (setImageResolve {} (mediaLazyLoad {} imgElem {}).1
            (elemIsBg {} imgElem) false
            (mediaLazyLoad {} imgElem {}).2.1).1.bgImage =
          some (cssUrl "x.jpg")
      else
        (setImageResolve {} (mediaLazyLoad {} imgElem {}).1
            (elemIsBg {} imgElem) false
            (mediaLazyLoad {} imgElem {}).2.1).1.src = some "x.jpg") :=
  failure_path {} imgElem {} "x.jpg" rfl rfl rfl (Or.inl rfl)

/-- Claim C7: the completion event `bio.finally` fires on the element after
the outcome is handled, on both the success and the failure path of the
preload protocol, unconditionally: it is the last action of the resolution
trace for every outcome. -/
theorem setImage_fires_finally (opts : Opts) (el : Elem) (isBg ok : Bool)
    (me : BioInst) :
    Action.finallyEv ∈ (setImageResolve opts el isBg ok me).2.2 ∧
    ((setImageResolve opts el isBg ok me).2.2).getLast? =
      some Action.finallyEv := by
  cases ok <;> simp [setImageResolve]

/-- Counterexample for C8 as stated: for the unmarked image element
`imgElem`, the first action of `lazyLoad` is the creation of the preload
probe, not the writing of the `data-bio-hit` marker — the marker is written
after the type-specific branch runs, not before. -/
theorem lazyLoad_hit_not_first :
    imgElem.hit = false ∧
    ((mediaLazyLoad {} imgElem {}).2.2).head? ≠ some Action.setHit := by
  constructor
  · rfl
  · decide

/-- Claim C8 (amended): for every element not already marked, `lazyLoad`
writes the `data-bio-hit` marker as its final action — after the
type-specific branch executes but before the call returns (hence before
any asynchronous preload outcome), so the element ends the call marked. -/
theorem lazyLoad_sets_hit_last (opts : Opts) (el : Elem) (me : BioInst)
    (hhit : el.hit = false) :
    ((mediaLazyLoad opts el me).2.2).getLast? = some Action.setHit ∧
    (mediaLazyLoad opts el me).1.hit = true := by
  refine ⟨?_, hit_after_mediaLazyLoad opts el me⟩
  simp [mediaLazyLoad, hhit]

/-- Witness for the amended C8 at the concrete element `imgElem`. -/
theorem lazyLoad_sets_hit_last_witness :
    ((mediaLazyLoad {} imgElem {}).2.2).getLast? = some Action.setHit ∧
    (mediaLazyLoad {} imgElem {}).1.hit = true :=
  lazyLoad_sets_hit_last {} imgElem {} rfl

/-- An instance currently tracking one errored element. -/
def erInst : BioInst :=
  { erCounted := 1 }

/-- A world holding a single default instance. -/
def world1 : World :=
  { shared := {}, insts := [{}] }

lemma disconnect_force_releases (opts : Opts) (me : BioInst) (sh : Shared) :
    disconnect opts true me sh =
      ({ me with count := 0, elms := none, observerAlive := false },
        { sh with disconnected := true }) := by
  simp [disconnect]

/-- Claim C4: `disconnect()` without force is a no-op while `erCounted > 0`
(instance and shared state unchanged, observer kept); `disconnect(force)`
always releases the underlying observer, resets `count` to zero, and sets
the module-level disconnected flag, whatever the error count. -/
theorem disconnect_spec (opts : Opts) (me : BioInst) (sh : Shared) :
    (0 < me.erCounted → disconnect opts false me sh = (me, sh)) ∧
    ((disconnect opts true me sh).1.observerAlive = false ∧
      (disconnect opts true me sh).1.count = 0 ∧
      (disconnect opts true me sh).2.disconnected = true) := by
  constructor
  · intro h
    simp [disconnect, h]
  · rw [disconnect_force_releases]
    exact ⟨rfl, rfl, rfl⟩

/-- Witness for C4: a forced and an unforced `disconnect` on an instance
with one outstanding error. -/
theorem disconnect_spec_witness :
    disconnect {} false erInst {} = (erInst, ({} : Shared)) ∧
    (disconnect {} true erInst {}).2.disconnected = true :=
  ⟨(disconnect_spec {} erInst {}).1 (by decide),
    (disconnect_spec {} erInst {}).2.2.2⟩

/-- Claim C9: `_disconnected` is module-level state shared by all
instances. After `disconnect(force)` succeeds on any one instance,
`disconnected()` answers true for every instance of the world; and
constructing a new `Bio` instance resets the shared flag to false for all
previously existing instances. -/
theorem shared_disconnected_flag (opts : Opts) (i : Nat) (w : World)
    (hi : i < w.insts.length) :
    (∀ me ∈ (disconnectAt opts true i w).insts,
      disconnectedQ me (disconnectAt opts true i w).shared = true) ∧
    (∀ dom, ∀ me2 ∈ (newBio opts dom w).insts,
      disconnectedQ me2 (newBio opts dom w).shared = false) := by
  constructor
  · intro me _
    have hsome : w.insts[i]? = some (w.insts.get ⟨i, hi⟩) :=
      List.getElem?_eq_getElem hi
    simp [disconnectAt, hsome, disconnectedQ, disconnect_force_releases]
  · intro dom me2 _
    simp [newBio, bioInit, disconnectedQ]

/-- Witness for C9: forced disconnect and reconstruction on a world with
one instance. -/
theorem shared_disconnected_flag_witness :
    (∀ me ∈ (disconnectAt {} true 0 world1).insts,
      disconnectedQ me (disconnectAt {} true 0 world1).shared = true) ∧
    (∀ dom, ∀ me2 ∈ (newBio {} dom world1).insts,
      disconnectedQ me2 (newBio {} dom world1).shared = false) :=
  shared_disconnected_flag {} 0 world1 (by decide)

lemma successStep_nonneg (me : BioInst) (h : 0 ≤ me.erCounted) :
    0 ≤ (successStep me).erCounted := by
  unfold successStep
  by_cases h2 : 0 < me.erCounted
  · rw [if_pos h2]
    show 0 ≤ me.erCounted - 1
    omega
  · rw [if_neg h2]
    exact h

lemma errorStep_nonneg (me : BioInst) (h : 0 ≤ me.erCounted) :
    0 ≤ (errorStep me).erCounted := by
  unfold errorStep
  show 0 ≤ me.erCounted + 1
  omega

lemma runErOps_nonneg (ops : List ErOp) (me : BioInst)
    (h : 0 ≤ me.erCounted) : 0 ≤ (runErOps me ops).erCounted := by
  induction ops generalizing me with
  | nil => exact h
  | cons op t ih =>
    cases op with
    | success => exact ih _ (successStep_nonneg me h)
    | error => exact ih _ (errorStep_nonneg me h)

/-- Claim C10: starting from any instance state with a non-negative error
count (new instances start at zero), `erCounted` stays non-negative under
every sequence of `success`/`error` operations: `error` always increments
it by one, and `success` decrements it only when strictly positive. -/
theorem erCounted_never_negative (me : BioInst) (ops : List ErOp)
    (h : 0 ≤ me.erCounted) :
    0 ≤ (runErOps me ops).erCounted ∧
    (errorStep me).erCounted = me.erCounted + 1 ∧
    (0 < me.erCounted → (successStep me).erCounted = me.erCounted - 1) ∧
    (me.erCounted ≤ 0 → (successStep me).erCounted = me.erCounted) := by
  refine ⟨runErOps_nonneg ops me h, rfl, ?_, ?_⟩
  · intro h3
    unfold successStep
    rw [if_pos h3]
  · intro h4
    unfold successStep
    rw [if_neg (by omega)]

/-- Witness for C10: a freshly constructed instance (`erCounted = 0`) under
the sequence error, success, success. -/
theorem erCounted_never_negative_witness :
    0 ≤ (runErOps {} [ErOp.error, ErOp.success, ErOp.success]).erCounted :=
  (erCounted_never_negative {} [ErOp.error, ErOp.success, ErOp.success]
    (by decide)).1

end Blazy
